import Mathlib

/-!
Verification development for the WhatFits browser extension.

JavaScript strings are modelled as `List Char` (`JStr`), JS objects as Lean
structures, and the two effectful boundaries (the chrome key-value store and
the network call to the chat-completion endpoint) as explicit parameters:
the store is a function from keys to optional values, and the network is an
oracle from the request record to `Except` (error message or parsed body).
All definitions are transcribed from the source files of the repository
(`src/lib/rules.js` / storage module in `src/unnamed/part_001`,
`src/lib/llm.js`, `src/content/content.js`).
-/

namespace WhatFits

/-- JavaScript string, modelled as a list of characters. -/
abbrev JStr := List Char

/-- Lean string literal viewed as a JS string. -/
def jstr (s : String) : JStr := s.toList

/-- ASCII simple case mapping for one character, modelling
`String.prototype.toLowerCase` on the character sets this program uses
(the accented vocabulary entries in the source are already lower case). -/
def toLowerChar (c : Char) : Char :=
  if 'A' ≤ c ∧ c ≤ 'Z' then Char.ofNat (c.toNat + 32) else c

/-- Model of `s.toLowerCase()`. -/
def jsToLower (s : JStr) : JStr := s.map toLowerChar

/-- Whitespace characters recognised by `String.prototype.trim` and `\s`
(restricted to the ASCII whitespace that can occur here). -/
def isJsSpace (c : Char) : Bool :=
  c = ' ' || c = '\t' || c = '\n' || c = '\r'

/-- Model of `s.trim()`. -/
def jsTrim (s : JStr) : JStr :=
  ((s.dropWhile isJsSpace).reverse.dropWhile isJsSpace).reverse

/-- Truthiness of a nullable JS string: `null`, `undefined` and `''` are
falsy, every other string is truthy. -/
def jsTruthyStr : Option JStr → Bool
  | some (_ :: _) => true
  | _ => false

/-- Helper of `jsDedup`: keep the elements not seen yet, first occurrences
first. -/
def jsDedupAux {α : Type _} [DecidableEq α] (seen : List α) : List α → List α
  | [] => []
  | a :: l => if a ∈ seen then jsDedupAux seen l else a :: jsDedupAux (a :: seen) l

/-- Model of `[...new Set(l)]`: drop duplicates keeping the first
occurrence of each element. -/
def jsDedup {α : Type _} [DecidableEq α] (l : List α) : List α :=
  jsDedupAux [] l

/-- Model of `haystack.includes(needle)` for strings. -/
def jsIncludes (haystack needle : JStr) : Bool :=
  decide (needle <:+: haystack)

/-- One pass of a global regex replacement: at each position try the matcher
(`some n` = a match of `n` characters starts here); on a match emit the
replacement and continue after the matched characters, otherwise keep the
character and move on.  The fuel argument is the length of the scanned
string, which bounds the number of steps. -/
def replaceScan (m : JStr → Option Nat) (repl : JStr) : Nat → JStr → JStr
  | _, [] => []
  | 0, s => s
  | fuel + 1, c :: cs =>
    match m (c :: cs) with
    | some n =>
      if 1 ≤ n then repl ++ replaceScan m repl fuel (List.drop n (c :: cs))
      else c :: replaceScan m repl fuel cs
    | none => c :: replaceScan m repl fuel cs

/-- Model of `s.replace(re, repl)` with a global regex given by a matcher. -/
def jsReplaceGlobal (m : JStr → Option Nat) (repl : JStr) (s : JStr) : JStr :=
  replaceScan m repl s.length s

/-- Matcher of the regex literal `/\\([^)]*\\)/g` from `normalizeIngredients`.
Because the backslashes in the source are doubled, `\\` is an escaped literal
backslash and the parentheses delimit a group, so the regex matches a
backslash, then a greedy run of non-`)` characters, then a backslash - not
parenthesised content.  The greedy middle backtracks to the last backslash
inside the maximal non-`)` window. -/
def parenMatchLen (s : JStr) : Option Nat :=
  match s with
  | c :: rest =>
    if c = '\\' then
      let w := rest.takeWhile (fun b => b ≠ ')')
      match w.reverse.findIdx? (fun b => b = '\\') with
      | some j => some (w.length - 1 - j + 2)
      | none => none
    else none
  | [] => none

/-- Matcher of the regex literal `/\\[[^\]]*\\]/g` from `normalizeIngredients`.
With the doubled backslashes this is: a literal backslash, then a character
class containing exactly `[`, `^` and `]`, repeated, then a literal backslash
and a literal `]` - not bracketed content. -/
def bracketMatchLen (s : JStr) : Option Nat :=
  match s with
  | c :: rest =>
    if c = '\\' then
      let w := rest.takeWhile (fun b => b = '[' || b = '^' || b = ']')
      match rest.drop w.length with
      | b1 :: b2 :: _ => if b1 = '\\' ∧ b2 = ']' then some (w.length + 3) else none
      | _ => none
    else none
  | [] => none

/-- Matcher of the regex literal `/\\s+/g` from `normalizeIngredients`.
With the doubled backslash this matches a literal backslash followed by one
or more literal `s` characters - not whitespace. -/
def bsSMatchLen (s : JStr) : Option Nat :=
  match s with
  | c :: rest =>
    if c = '\\' then
      let n := (rest.takeWhile (fun b => b = 's')).length
      if 1 ≤ n then some (n + 1) else none
    else none
  | [] => none

/-- Character class `[a-z0-9]` (the strings are lower-cased first). -/
def isLowerAlnum (c : Char) : Bool :=
  ('a' ≤ c && c ≤ 'z') || ('0' ≤ c && c ≤ '9')

/-- Model of `s.replace(/^[^a-z0-9]+|[^a-z0-9]+$/g, '')`: strip the leading
and the trailing run of non-alphanumeric characters. -/
def stripNonAlnumEdges (s : JStr) : JStr :=
  ((s.dropWhile (fun c => !isLowerAlnum c)).reverse.dropWhile
    (fun c => !isLowerAlnum c)).reverse

/-- Per-element transformation of `normalizeIngredients` (`rules.js`),
steps 1-4 plus the final `trim`, with the three doubly-escaped regexes
transcribed as they behave, not as their comments describe them. -/
def normalizeOne (ing : JStr) : JStr :=
  let c1 := jsToLower ing
  let c2 := jsReplaceGlobal parenMatchLen [] c1
  let c3 := jsReplaceGlobal bracketMatchLen [] c2
  let c4 := stripNonAlnumEdges c3
  let c5 := jsReplaceGlobal bsSMatchLen [' '] c4
  jsTrim c5

/-- Model of `normalizeIngredients` (`rules.js`): map the per-element
cleanup, drop elements that became empty (`filter(Boolean)`), and
deduplicate preserving the first occurrence (`[...new Set(...)]`). -/
def normalizeIngredients (ingredients : List JStr) : List JStr :=
  jsDedup ((ingredients.map normalizeOne).filter (fun s => !s.isEmpty))

/-- The `direct` list of the static `STIMULANTS` vocabulary (`rules.js`). -/
def STIMULANTS_direct : List JStr :=
  [jstr "caffeine", jstr "caféine", jstr "synephrine", jstr "yohimbine",
   jstr "anhydrous caffeine"]

/-- The `botanical` list of the static `STIMULANTS` vocabulary (`rules.js`). -/
def STIMULANTS_botanical : List JStr :=
  [jstr "guarana", jstr "green tea extract", jstr "extrait de thé vert",
   jstr "yerba mate", jstr "kola nut"]

/-- Does some (lower-cased) ingredient contain this vocabulary entry?
This is `normalizedInput.some(ing => ing.includes(stim))` in the source. -/
def stimulantMatched (ingredients : List JStr) (stim : JStr) : Bool :=
  (ingredients.map jsToLower).any (fun ing => jsIncludes ing stim)

/-- Result record of `checkStimulants`; the `type` field holds one of the
strings `direct`, `botanical`, `none` exactly as in the source. -/
structure StimResult where
  present : Bool
  found : List JStr
  type : JStr
  deriving DecidableEq

/-- The `foundDirect` accumulator of `checkStimulants`: the direct entries
some ingredient contains. -/
def foundDirectList (ingredients : List JStr) : List JStr :=
  STIMULANTS_direct.filter (fun stim => stimulantMatched ingredients stim)

/-- The `foundBotanical` accumulator of `checkStimulants`: the botanical
entries some ingredient contains. -/
def foundBotanicalList (ingredients : List JStr) : List JStr :=
  STIMULANTS_botanical.filter (fun stim => stimulantMatched ingredients stim)

/-- Model of `checkStimulants` (`rules.js`). -/
def checkStimulants (ingredients : List JStr) : StimResult :=
  let foundDirect := foundDirectList ingredients
  let foundBotanical := foundBotanicalList ingredients
  let allFound := foundDirect ++ foundBotanical
  if allFound.isEmpty then { present := false, found := [], type := jstr "none" }
  else if !foundDirect.isEmpty then
    { present := true, found := jsDedup allFound, type := jstr "direct" }
  else
    { present := true, found := jsDedup allFound, type := jstr "botanical" }

/-- One mismatch record produced by `checkDietaryMismatches`. -/
structure DietaryMismatch where
  preference : JStr
  reason : JStr
  deriving DecidableEq

/-- Result record of `checkDietaryMismatches`. -/
structure DietaryCheck where
  mismatches : List DietaryMismatch
  deriving DecidableEq

/-- Product record as the rules and llm modules consume it.  The content
script always materialises `ingredients`, `claims`, `dietaryInfo`,
`warnings` and `missing_data` as arrays, so those are plain lists; `title`
and `price` can be `null` and are options.  `ingredients_raw` is the field
added by `preprocessProductData`. -/
structure Product where
  url : Option JStr := none
  title : Option JStr := none
  price : Option JStr := none
  ingredients : List JStr := []
  claims : List JStr := []
  dietaryInfo : List JStr := []
  warnings : List JStr := []
  missing_data : List JStr := []
  ingredients_raw : List JStr := []
  deriving DecidableEq

/-- Model of `checkDietaryMismatches` (`rules.js`): join the ingredients
with spaces, lower-case, and look for the dairy / gluten marker substrings;
emit one mismatch record per conflicting stated preference, in source
order. -/
def checkDietaryMismatches (userPreferences : List JStr) (productData : Product) :
    DietaryCheck :=
  let ingredientsStr := jsToLower (List.intercalate [' '] productData.ingredients)
  let hasDairy := jsIncludes ingredientsStr (jstr "lait")
    || jsIncludes ingredientsStr (jstr "lactosérum")
    || jsIncludes ingredientsStr (jstr "whey")
    || jsIncludes ingredientsStr (jstr "milk")
    || jsIncludes ingredientsStr (jstr "casein")
  let hasGluten := jsIncludes ingredientsStr (jstr "gluten")
    || jsIncludes ingredientsStr (jstr "blé")
    || jsIncludes ingredientsStr (jstr "wheat")
    || jsIncludes ingredientsStr (jstr "orge")
    || jsIncludes ingredientsStr (jstr "barley")
  { mismatches :=
      (if userPreferences.contains (jstr "lactose_free") && hasDairy then
        [{ preference := jstr "lactose_free",
           reason := jstr "Contains dairy-derived ingredients, which conflicts with lactose-free preference." }]
       else []) ++
      (if userPreferences.contains (jstr "vegan") && hasDairy then
        [{ preference := jstr "vegan",
           reason := jstr "Contains dairy-derived ingredients, which conflicts with vegan preference." }]
       else []) ++
      (if userPreferences.contains (jstr "gluten_free") && hasGluten then
        [{ preference := jstr "gluten_free",
           reason := jstr "Contains wheat/gluten-related ingredients, which conflicts with gluten-free preference." }]
       else []) }

/-- Result record of `detectMissingData`. -/
structure MissingDataStats where
  missing_data : List JStr
  completeness : ℚ
  deriving DecidableEq

/-- A nullable string field is missing when it is `null`/`undefined` or
blank after trimming (`detectMissingData`, `rules.js`). -/
def strFieldMissing : Option JStr → Bool
  | none => true
  | some s => (jsTrim s).isEmpty

/-- Model of `detectMissingData` (`rules.js`) over the expected fields
`title`, `price`, `ingredients`, `claims`. -/
def detectMissingData (productData : Product) : MissingDataStats :=
  let missing :=
    (if strFieldMissing productData.title then [jstr "title"] else []) ++
    (if strFieldMissing productData.price then [jstr "price"] else []) ++
    (if productData.ingredients.isEmpty then [jstr "ingredients"] else []) ++
    (if productData.claims.isEmpty then [jstr "claims"] else [])
  { missing_data := missing,
    completeness := ((4 : ℚ) - missing.length) / 4 }

/-- User-context record, schema v3 of the storage module, plus the three
legacy keys (`goals`, `preferences`, `dietary`) that
`calculateAnalysisConfidence` and `generateRuleSummary` probe with
optional chaining; those keys are absent from the questionnaire schema, so
they are options. -/
structure UserContext where
  age : Option ℚ := none
  weight_kg : Option ℚ := none
  height_cm : Option ℚ := none
  gender : JStr := []
  primary_goal : List JStr := []
  training_frequency : JStr := []
  training_style : List JStr := []
  nutrition_priority : List JStr := []
  dietary_style : List JStr := []
  avoidances : List JStr := []
  supplements_intake : JStr := []
  current_focus : JStr := []
  mental_focus : JStr := []
  joint_protection : List JStr := []
  additional_context : JStr := []
  goals : Option (List JStr) := none
  preferences : Option (List JStr) := none
  dietary : Option (List JStr) := none
  deriving DecidableEq

/-- Truthiness of `o?.length > 0` for a possibly-absent JS array. -/
def optListNonempty : Option (List JStr) → Bool
  | some (_ :: _) => true
  | _ => false

/-- Model of `calculateAnalysisConfidence` (`rules.js`), returning the
`confidence` component (the `explanation` string is never consumed by the
rest of the program).  The source computes with IEEE doubles; the embedding
uses exact rationals with the same formula. -/
def calculateAnalysisConfidence (productData : Product) (userContext : UserContext) : ℚ :=
  let completeness := (detectMissingData productData).completeness
  let hasIngredients := !productData.ingredients.isEmpty
  let hasUserGoals := !userContext.primary_goal.isEmpty || optListNonempty userContext.goals
  let hasUserPrefs := !userContext.avoidances.isEmpty
    || !userContext.dietary_style.isEmpty
    || optListNonempty userContext.preferences
    || optListNonempty userContext.dietary
  let rulesApplicable := ([hasIngredients, hasUserGoals, hasUserPrefs].filter (fun b => b)).length
  let ruleCoverage := (rulesApplicable : ℚ) / 3
  ((round ((completeness * (7 / 10) + ruleCoverage * (3 / 10)) * 100) : ℤ) : ℚ) / 100

/-- Model of `preprocessProductData` (`rules.js`): keep the raw ingredient
list aside and replace it with the normalized one, unless it is absent or
empty. -/
def preprocessProductData (data : Product) : Product :=
  if data.ingredients.isEmpty then data
  else { data with
         ingredients_raw := data.ingredients,
         ingredients := normalizeIngredients data.ingredients }

/-- Summary record produced by `generateRuleSummary`. -/
structure RuleSummary where
  stimulants : StimResult
  dietary_mismatches : List JStr
  dietary_reasons : List DietaryMismatch
  data_completeness : ℚ
  missing_fields : List JStr
  confidence_score : ℚ
  ingredient_count : Nat
  deriving DecidableEq

/-- Model of `generateRuleSummary` (`rules.js`).  The dietary check is fed
`userContext.dietary || []`, i.e. the legacy `dietary` key, defaulted to the
empty list when absent. -/
def generateRuleSummary (productData : Product) (userContext : UserContext) : RuleSummary :=
  let processed := preprocessProductData productData
  let stimCheck := checkStimulants processed.ingredients
  let dietaryCheck := checkDietaryMismatches (userContext.dietary.getD []) processed
  let dataStats := detectMissingData processed
  let confidence := calculateAnalysisConfidence processed userContext
  { stimulants := stimCheck,
    dietary_mismatches := dietaryCheck.mismatches.map (fun m => m.preference),
    dietary_reasons := dietaryCheck.mismatches,
    data_completeness := dataStats.completeness,
    missing_fields := dataStats.missing_data,
    confidence_score := confidence,
    ingredient_count := processed.ingredients.length }

/-- The `whatfits_user_context` storage key (`STORAGE_KEYS.USER_CONTEXT`). -/
def STORAGE_KEY_USER_CONTEXT : JStr := jstr "whatfits_user_context"

/-- The `whatfits_api_key` storage key (`STORAGE_KEYS.API_KEY`). -/
def STORAGE_KEY_API_KEY : JStr := jstr "whatfits_api_key"

/-- The chrome local key-value store, as a map from keys to optional
stored values. -/
def Store (α : Type _) := JStr → Option α

/-- Model of `chrome.storage.local.set({ [k]: v })`. -/
def storeSet {α : Type _} (s : Store α) (k : JStr) (v : α) : Store α :=
  fun q => if q = k then some v else s q

/-- Model of `chrome.storage.local.remove(ks)`. -/
def storeRemove {α : Type _} (s : Store α) (ks : List JStr) : Store α :=
  fun q => if q ∈ ks then none else s q

/-- Model of `saveUserContext` (storage module): write the context record
under its key. -/
def saveUserContext {α : Type _} (s : Store α) (context : α) : Store α :=
  storeSet s STORAGE_KEY_USER_CONTEXT context

/-- Model of `saveApiKey` (storage module): write the API key under its
key. -/
def saveApiKey {α : Type _} (s : Store α) (apiKey : α) : Store α :=
  storeSet s STORAGE_KEY_API_KEY apiKey

/-- Model of `clearStorage` (storage module): remove the two module keys. -/
def clearStorage {α : Type _} (s : Store α) : Store α :=
  storeRemove s [STORAGE_KEY_USER_CONTEXT, STORAGE_KEY_API_KEY]

/-- Partial user-context record as it may sit in storage: each field of the
default record, present or absent; an absent outer option is an absent key.
The three legacy keys can also be present. -/
structure StoredContext where
  age : Option (Option ℚ) := none
  weight_kg : Option (Option ℚ) := none
  height_cm : Option (Option ℚ) := none
  gender : Option JStr := none
  primary_goal : Option (List JStr) := none
  training_frequency : Option JStr := none
  training_style : Option (List JStr) := none
  nutrition_priority : Option (List JStr) := none
  dietary_style : Option (List JStr) := none
  avoidances : Option (List JStr) := none
  supplements_intake : Option JStr := none
  current_focus : Option JStr := none
  mental_focus : Option JStr := none
  joint_protection : Option (List JStr) := none
  additional_context : Option JStr := none
  goals : Option (List JStr) := none
  preferences : Option (List JStr) := none
  dietary : Option (List JStr) := none
  deriving DecidableEq

/-- The `DEFAULT_USER_CONTEXT` constant of the storage module (schema v3). -/
def DEFAULT_USER_CONTEXT : UserContext :=
  { age := none, weight_kg := none, height_cm := none, gender := jstr "",
    primary_goal := [], training_frequency := jstr "", training_style := [],
    nutrition_priority := [], dietary_style := [], avoidances := [],
    supplements_intake := jstr "", current_focus := jstr "",
    mental_focus := jstr "", joint_protection := [],
    additional_context := jstr "", goals := none, preferences := none,
    dietary := none }

/-- Model of the spread `{ ...DEFAULT_USER_CONTEXT, ...stored }`: a field
present in storage overrides the default, an absent field keeps it.  The
legacy keys have no default, so they are taken from storage as-is. -/
def mergeContext (stored : StoredContext) : UserContext :=
  { age := stored.age.getD DEFAULT_USER_CONTEXT.age,
    weight_kg := stored.weight_kg.getD DEFAULT_USER_CONTEXT.weight_kg,
    height_cm := stored.height_cm.getD DEFAULT_USER_CONTEXT.height_cm,
    gender := stored.gender.getD DEFAULT_USER_CONTEXT.gender,
    primary_goal := stored.primary_goal.getD DEFAULT_USER_CONTEXT.primary_goal,
    training_frequency := stored.training_frequency.getD DEFAULT_USER_CONTEXT.training_frequency,
    training_style := stored.training_style.getD DEFAULT_USER_CONTEXT.training_style,
    nutrition_priority := stored.nutrition_priority.getD DEFAULT_USER_CONTEXT.nutrition_priority,
    dietary_style := stored.dietary_style.getD DEFAULT_USER_CONTEXT.dietary_style,
    avoidances := stored.avoidances.getD DEFAULT_USER_CONTEXT.avoidances,
    supplements_intake := stored.supplements_intake.getD DEFAULT_USER_CONTEXT.supplements_intake,
    current_focus := stored.current_focus.getD DEFAULT_USER_CONTEXT.current_focus,
    mental_focus := stored.mental_focus.getD DEFAULT_USER_CONTEXT.mental_focus,
    joint_protection := stored.joint_protection.getD DEFAULT_USER_CONTEXT.joint_protection,
    additional_context := stored.additional_context.getD DEFAULT_USER_CONTEXT.additional_context,
    goals := stored.goals,
    preferences := stored.preferences,
    dietary := stored.dietary }

/-- Outcome of the `chrome.storage.local.get` read inside `getUserContext`:
either the read succeeds (with the record present or absent/falsy, in which
case the source substitutes `{}`), or it throws. -/
inductive StorageRead where
  | ok (v : Option StoredContext)
  | err
  deriving DecidableEq

/-- Model of `getUserContext` (storage module): merge the stored record over
the defaults; on a read failure return the defaults. -/
def getUserContext : StorageRead → UserContext
  | .ok (some stored) => mergeContext stored
  | .ok none => mergeContext {}
  | .err => DEFAULT_USER_CONTEXT

/-- Model of the context record the popup submit handler saves
(`src/popup/popup.js`, `contextForm` submit listener; the popup copy
embedded in `src/background/service-worker.js` is identical): the
questionnaire selections, plus the computed legacy `dietary` key -
`['vegan']` when `vegan` is among the selected dietary styles
(`Array.prototype.includes`, element equality), `[]` otherwise.  The
handler also writes the v2-only keys `constraints`, `supplement_stance`
and `sustainability`, which no consumer of the stored context reads; they
have no counterpart in `StoredContext`. -/
def popupSavedContext (primaryGoal : List JStr) (trainingFrequency : JStr)
    (trainingStyle nutritionPriority dietaryStyle avoidances : List JStr)
    (currentFocus mentalFocus : JStr) (jointProtection : List JStr)
    (additionalContext : JStr) : StoredContext :=
  { primary_goal := some primaryGoal,
    training_frequency := some trainingFrequency,
    training_style := some trainingStyle,
    nutrition_priority := some nutritionPriority,
    dietary_style := some dietaryStyle,
    avoidances := some avoidances,
    current_focus := some currentFocus,
    mental_focus := some mentalFocus,
    joint_protection := some jointProtection,
    additional_context := some additionalContext,
    dietary := some (if dietaryStyle.contains (jstr "vegan") then [jstr "vegan"] else []) }

/-- The joined, lower-cased ingredient string `checkDietaryMismatches`
scans: `(productData?.ingredients || []).join(' ').toLowerCase()`. -/
def ingredientsJoinedLower (productData : Product) : JStr :=
  jsToLower (List.intercalate [' '] productData.ingredients)

/-- The `hasDairy` marker test of `checkDietaryMismatches`. -/
def hasDairyMarker (productData : Product) : Bool :=
  jsIncludes (ingredientsJoinedLower productData) (jstr "lait")
    || jsIncludes (ingredientsJoinedLower productData) (jstr "lactosérum")
    || jsIncludes (ingredientsJoinedLower productData) (jstr "whey")
    || jsIncludes (ingredientsJoinedLower productData) (jstr "milk")
    || jsIncludes (ingredientsJoinedLower productData) (jstr "casein")

/-- Constraints attached to one property of a response JSON schema
(`llm.js`): its `type`, an optional `enum`, and an optional `maxItems`. -/
structure PropSpec where
  ptype : JStr
  enumVals : Option (List JStr) := none
  maxItems : Option Nat := none
  deriving DecidableEq

/-- Shape of the `response_format` objects of `llm.js`: the `json_schema`
wrapper with its `strict` flag and an object schema given by named
properties, a `required` list and the `additionalProperties` flag. -/
structure JsonSchemaFormat where
  rtype : JStr
  name : JStr
  strict : Bool
  properties : List (JStr × PropSpec)
  required : List JStr
  additionalProperties : Bool
  deriving DecidableEq

/-- The `PRODUCT_ALIGNMENT_SCHEMA` constant of `llm.js`. -/
def PRODUCT_ALIGNMENT_SCHEMA : JsonSchemaFormat :=
  { rtype := jstr "json_schema",
    name := jstr "product_alignment",
    strict := true,
    properties :=
      [(jstr "alignment",
        { ptype := jstr "string",
          enumVals := some [jstr "aligned", jstr "neutral", jstr "misaligned"] }),
       (jstr "reasons", { ptype := jstr "array", maxItems := some 3 }),
       (jstr "considerations", { ptype := jstr "array", maxItems := some 3 }),
       (jstr "preference_matches", { ptype := jstr "array", maxItems := some 5 }),
       (jstr "preference_mismatches", { ptype := jstr "array", maxItems := some 5 }),
       (jstr "missing_data", { ptype := jstr "array", maxItems := some 5 }),
       (jstr "questions", { ptype := jstr "array", maxItems := some 2 })],
    required :=
      [jstr "alignment", jstr "reasons", jstr "considerations",
       jstr "preference_matches", jstr "preference_mismatches",
       jstr "missing_data", jstr "questions"],
    additionalProperties := false }

/-- The deterministic-facts block that `analyzeProductAlignment` separates
out of the rule summary for the prompt. -/
structure DeterministicFacts where
  stimulants : StimResult
  dietary_mismatches : List JStr
  ingredient_count : Nat
  deriving DecidableEq

/-- The deterministic-meta block that `analyzeProductAlignment` separates
out of the rule summary for the prompt. -/
structure DeterministicMeta where
  data_completeness : ℚ
  missing_fields : List JStr
  confidence_score : ℚ
  deriving DecidableEq

/-- The structured payload serialised by `buildProductPrompt` (`llm.js`);
`JSON.stringify` being an injective serialisation, the embedding keeps the
structured value. -/
structure ProductPrompt where
  task : JStr
  deterministic_analysis_facts : DeterministicFacts
  meta_quality_info : DeterministicMeta
  title : Option JStr
  price : Option JStr
  ingredients : List JStr
  dietary_info : List JStr
  marketing_claims : List JStr
  warnings : List JStr
  user_profile : UserContext
  deriving DecidableEq

/-- Model of `buildProductPrompt` (`llm.js`). -/
def buildProductPrompt (productData : Product) (userContext : UserContext)
    (deterministicFacts : DeterministicFacts) (deterministicMeta : DeterministicMeta) :
    ProductPrompt :=
  { task := jstr "PRODUCT_ALIGNMENT_EVALUATION",
    deterministic_analysis_facts := deterministicFacts,
    meta_quality_info := deterministicMeta,
    title := productData.title,
    price := productData.price,
    ingredients := productData.ingredients,
    dietary_info := productData.dietaryInfo,
    marketing_claims := productData.claims,
    warnings := productData.warnings,
    user_profile := userContext }

/-- The HTTP POST body and headers that `callOpenAI` (`llm.js`) assembles
for a product-alignment request: bearer token, model name, the user prompt
(the fixed system prompt is a constant and is elided), the attached response
format, temperature 0.2 and the `max_tokens` cap. -/
structure OpenAIRequest where
  bearer : JStr
  model : JStr
  userPrompt : ProductPrompt
  response_format : JsonSchemaFormat
  temperature : ℚ
  max_tokens : Nat
  deriving DecidableEq

/-- Model of the request construction inside `callOpenAI` (`llm.js`). -/
def callOpenAIRequest (apiKey : JStr) (userPrompt : ProductPrompt)
    (responseFormat : JsonSchemaFormat) : OpenAIRequest :=
  { bearer := apiKey,
    model := jstr "gpt-4o-mini",
    userPrompt := userPrompt,
    response_format := responseFormat,
    temperature := 1 / 5,
    max_tokens := 600 }

/-- The parsed JSON body a successful model call yields; the seven schema
fields, plus an `alignment_confidence` the model could illegally include
(the result record overwrites it).  `missing_data` is optional to model the
`response.missing_data || []` guard. -/
structure LLMResponse where
  alignment : JStr := []
  reasons : List JStr := []
  considerations : List JStr := []
  preference_matches : List JStr := []
  preference_mismatches : List JStr := []
  missing_data : Option (List JStr) := none
  questions : List JStr := []
  alignment_confidence : Option ℚ := none
  deriving DecidableEq

/-- The record `analyzeProductAlignment` returns to the popup. -/
structure AlignmentResult where
  alignment : JStr
  alignment_confidence : ℚ
  data_quality : ℤ
  reasons : List JStr
  considerations : List JStr
  preference_matches : List JStr
  preference_mismatches : List JStr
  missing_data : List JStr
  questions : List JStr
  error : Bool
  deriving DecidableEq

/-- Model of `createFallbackResponse` (`llm.js`). -/
def createFallbackResponse (errorMessage : JStr) (productData : Option Product) :
    AlignmentResult :=
  { alignment := jstr "neutral",
    alignment_confidence := 0,
    data_quality := 0,
    reasons := [jstr "Error: " ++ errorMessage],
    considerations := [jstr "Check API key and network connection"],
    preference_matches := [],
    preference_mismatches := [],
    missing_data := (productData.map (fun p => p.missing_data)).getD [],
    questions := [],
    error := true }

/-- The record `createCartFallback` (`llm.js`) returns. -/
structure CartResult where
  stack_alignment_score : ℤ
  redundancies : List JStr
  goal_mismatches : List JStr
  suggested_actions : List JStr
  missing_data : List JStr
  error : Bool
  deriving DecidableEq

/-- Model of `createCartFallback` (`llm.js`). -/
def createCartFallback (errorMessage : JStr) : CartResult :=
  { stack_alignment_score := 0,
    redundancies := [],
    goal_mismatches := [],
    suggested_actions := [jstr "Error: " ++ errorMessage],
    missing_data := [],
    error := true }

/-- The request `analyzeProductAlignment` hands to `callOpenAI`: the rule
summary is split into facts and meta, the prompt is built, and the
product-alignment response format is attached. -/
def productAlignmentRequest (apiKey : JStr) (productData : Product)
    (userContext : UserContext) : OpenAIRequest :=
  let ruleSummary := generateRuleSummary productData userContext
  let deterministicFacts : DeterministicFacts :=
    { stimulants := ruleSummary.stimulants,
      dietary_mismatches := ruleSummary.dietary_mismatches,
      ingredient_count := ruleSummary.ingredient_count }
  let deterministicMeta : DeterministicMeta :=
    { data_completeness := ruleSummary.data_completeness,
      missing_fields := ruleSummary.missing_fields,
      confidence_score := ruleSummary.confidence_score }
  callOpenAIRequest apiKey
    (buildProductPrompt productData userContext deterministicFacts deterministicMeta)
    PRODUCT_ALIGNMENT_SCHEMA

/-- Model of `analyzeProductAlignment` (`llm.js`).  The network boundary is
an oracle from the assembled request to either the parsed response body or
the message of the thrown error (HTTP failure, empty content, or a JSON
parse failure - every throw inside the `try` lands in the single `catch`).
The source performs exactly one call and has no retry, which the embedding
mirrors by consulting the oracle once. -/
def analyzeProductAlignment (productData : Option Product) (userContext : UserContext)
    (apiKey : Option JStr) (network : OpenAIRequest → Except JStr LLMResponse) :
    AlignmentResult :=
  if !jsTruthyStr apiKey then
    createFallbackResponse (jstr "No API key configured") productData
  else
    match productData with
    | none => createFallbackResponse (jstr "Insufficient product data") none
    | some pd =>
      if !jsTruthyStr pd.title then
        createFallbackResponse (jstr "Insufficient product data") (some pd)
      else
        let ruleSummary := generateRuleSummary pd userContext
        match network (productAlignmentRequest (apiKey.getD []) pd userContext) with
        | .error e => createFallbackResponse e (some pd)
        | .ok response =>
          { alignment := response.alignment,
            reasons := response.reasons,
            considerations := response.considerations,
            preference_matches := response.preference_matches,
            preference_mismatches := response.preference_mismatches,
            questions := response.questions,
            alignment_confidence := ruleSummary.confidence_score,
            data_quality := round (ruleSummary.data_completeness * 100),
            missing_data := jsDedup (response.missing_data.getD [] ++ ruleSummary.missing_fields),
            error := false }

/-- One raw cart item as assembled inside the `cartItems.forEach` loop of
`extractCartData` (`content.js`), before the noise filter. -/
structure RawCartItem where
  name : Option JStr := none
  quantity : ℤ := 1
  price : Option JStr := none
  url : Option JStr := none
  deriving DecidableEq

/-- The record `extractCartData` returns. -/
structure CartData where
  items : List RawCartItem
  total : Option JStr
  missing_data : List JStr
  deriving DecidableEq

/-- The `DENY_LIST` constant of `extractCartData` (`content.js`). -/
def DENY_LIST : List JStr :=
  [jstr "se connecter", jstr "s\x27inscrire", jstr "register", jstr "login",
   jstr "total", jstr "sous-total", jstr "subtotal",
   jstr "ajoutez au panier", jstr "add to cart",
   jstr "code de réduction", jstr "discount code",
   jstr "livraison", jstr "delivery"]

/-- Character class `[\d,.]` of the price-only regex. -/
def isPriceDigit (c : Char) : Bool := c.isDigit || c = ',' || c = '.'

/-- Character class `[€$£]` of the price regexes. -/
def isCurrencyChar (c : Char) : Bool := c = '€' || c = '$' || c = '£'

/-- Model of `/^[\d,.]+\s*[€$£]$/.test(name)`: the whole string is a run of
digits/commas/dots, optional whitespace, then one currency sign.  The three
character classes are disjoint, so the greedy decomposition is the only
one. -/
def nameIsPriceOnly (s : JStr) : Bool :=
  let d := s.takeWhile isPriceDigit
  if d.isEmpty then false
  else
    let r1 := s.drop d.length
    let w := r1.takeWhile isJsSpace
    match r1.drop w.length with
    | [c] => isCurrencyChar c
    | _ => false

/-- The noise filter of `extractCartData` (`content.js`): drop items with a
falsy name, a name matching the deny list, a name shorter than 3
characters, or a name that is only a price. -/
def cartNoiseKeep (item : RawCartItem) : Bool :=
  match item.name with
  | none => false
  | some name =>
    if name.isEmpty then false
    else
      let lowerName := jsToLower name
      if DENY_LIST.any (fun term => jsIncludes lowerName term) then false
      else if lowerName.length < 3 then false
      else if nameIsPriceOnly name then false
      else true

/-- Model of `extractCartData` (`content.js`) from the point where the DOM
has yielded the raw per-item records and the raw total: push an item when
its name or price is truthy, apply the noise filter, and record
`missing_data` entries for an empty item list and a missing total. -/
def extractCartData (scraped : List RawCartItem) (total : Option JStr) : CartData :=
  let pushed := scraped.filter (fun it => jsTruthyStr it.name || jsTruthyStr it.price)
  let items := pushed.filter cartNoiseKeep
  let missing :=
    (if items.isEmpty then [jstr "items"] else []) ++
    (if jsTruthyStr total then [] else [jstr "total"])
  { items := items, total := total, missing_data := missing }

/-- Concrete product used by the witnesses. -/
def demoProduct : Product :=
  { title := some (jstr "Whey Protein 1kg"),
    price := some (jstr "19,99 €"),
    ingredients := [jstr "Whey (milk)", jstr "caffeine"],
    claims := [jstr "High protein"] }

/-- Concrete parsed model response used by the witnesses. -/
def demoResponse : LLMResponse :=
  { alignment := jstr "aligned",
    reasons := [jstr "matches goal"],
    missing_data := some [jstr "dosage", jstr "price"] }

/-- Network oracle that always succeeds with `demoResponse`. -/
def demoNetworkOk : OpenAIRequest → Except JStr LLMResponse :=
  fun _ => Except.ok demoResponse

/-- Network oracle that always fails with an HTTP-status error message. -/
def demoNetworkErr : OpenAIRequest → Except JStr LLMResponse :=
  fun _ => Except.error (jstr "API error: 500")

/-- Concrete store used by the witness of the frame claim. -/
def demoStore : Store Nat := fun _ => some 7

/-- Concrete raw cart item used by the witness of the cart claim. -/
def demoCartItem : RawCartItem :=
  { name := some (jstr "Whey Protein"), price := some (jstr "19,99 €") }

/-- The record the popup save handler stores for a user whose only
questionnaire selection is the `vegan` dietary style. -/
def demoVeganSaved : StoredContext :=
  popupSavedContext [] (jstr "") [] [] [jstr "vegan"] [] (jstr "") (jstr "") [] (jstr "")

theorem mem_jsDedupAux {α : Type _} [DecidableEq α] (x : α) (l : List α) :
    ∀ seen : List α, x ∈ jsDedupAux seen l ↔ x ∈ l ∧ x ∉ seen := by
  induction l with
  | nil => intro seen; simp [jsDedupAux]
  | cons a l ih =>
    intro seen
    by_cases ha : a ∈ seen
    · rw [jsDedupAux, if_pos ha, ih]
      by_cases hx : x = a
      · subst hx; simp [ha]
      · simp [List.mem_cons, hx]
    · rw [jsDedupAux, if_neg ha]
      by_cases hx : x = a
      · subst hx; simp [List.mem_cons, ha]
      · simp only [List.mem_cons, hx, false_or, ih]

theorem nodup_jsDedupAux {α : Type _} [DecidableEq α] (l : List α) :
    ∀ seen : List α, (jsDedupAux seen l).Nodup := by
  induction l with
  | nil => intro seen; simp [jsDedupAux]
  | cons a l ih =>
    intro seen
    by_cases ha : a ∈ seen
    · simpa [jsDedupAux, ha] using ih seen
    · simp only [jsDedupAux, if_neg ha, List.nodup_cons]
      refine ⟨fun hmem => ?_, ih _⟩
      rw [mem_jsDedupAux] at hmem
      exact hmem.2 (List.mem_cons_self _ _)

theorem mem_jsDedup {α : Type _} [DecidableEq α] (x : α) (l : List α) :
    x ∈ jsDedup l ↔ x ∈ l := by
  simp [jsDedup, mem_jsDedupAux]

theorem nodup_jsDedup {α : Type _} [DecidableEq α] (l : List α) :
    (jsDedup l).Nodup :=
  nodup_jsDedupAux l []

theorem jsIncludes_iff (haystack needle : JStr) :
    jsIncludes haystack needle = true ↔ needle <:+: haystack := by
  simp [jsIncludes]

theorem stimulantMatched_iff (l : List JStr) (stim : JStr) :
    stimulantMatched l stim = true ↔ ∃ ing ∈ l, stim <:+: jsToLower ing := by
  simp [stimulantMatched, List.any_eq_true, List.mem_map, jsIncludes]

theorem mem_normalizeIngredients (x : JStr) (l : List JStr) :
    x ∈ normalizeIngredients l ↔ (∃ ing ∈ l, normalizeOne ing = x) ∧ x ≠ [] := by
  simp only [normalizeIngredients, mem_jsDedup, List.mem_filter, List.mem_map,
    Bool.not_eq_true', List.isEmpty_eq_false]

theorem mem_foundDirectList (l : List JStr) (stim : JStr) :
    stim ∈ foundDirectList l ↔
      stim ∈ STIMULANTS_direct ∧ ∃ ing ∈ l, stim <:+: jsToLower ing := by
  simp [foundDirectList, List.mem_filter, stimulantMatched_iff]

theorem mem_foundBotanicalList (l : List JStr) (stim : JStr) :
    stim ∈ foundBotanicalList l ↔
      stim ∈ STIMULANTS_botanical ∧ ∃ ing ∈ l, stim <:+: jsToLower ing := by
  simp [foundBotanicalList, List.mem_filter, stimulantMatched_iff]

theorem foundDirectList_eq_nil (l : List JStr) :
    foundDirectList l = [] ↔
      ∀ stim ∈ STIMULANTS_direct, ∀ ing ∈ l, ¬ stim <:+: jsToLower ing := by
  simp [foundDirectList, List.filter_eq_nil_iff, stimulantMatched_iff]

theorem foundBotanicalList_eq_nil (l : List JStr) :
    foundBotanicalList l = [] ↔
      ∀ stim ∈ STIMULANTS_botanical, ∀ ing ∈ l, ¬ stim <:+: jsToLower ing := by
  simp [foundBotanicalList, List.filter_eq_nil_iff, stimulantMatched_iff]

theorem checkStimulants_cases (l : List JStr) :
    (foundDirectList l = [] ∧ foundBotanicalList l = [] ∧
      checkStimulants l = StimResult.mk false [] (jstr "none")) ∨
    (foundDirectList l ≠ [] ∧
      checkStimulants l = StimResult.mk true
        (jsDedup (foundDirectList l ++ foundBotanicalList l)) (jstr "direct")) ∨
    (foundDirectList l = [] ∧ foundBotanicalList l ≠ [] ∧
      checkStimulants l = StimResult.mk true
        (jsDedup (foundDirectList l ++ foundBotanicalList l)) (jstr "botanical")) := by
  by_cases hd : foundDirectList l = []
  · by_cases hb : foundBotanicalList l = []
    · exact Or.inl ⟨hd, hb, by simp [checkStimulants, hd, hb]⟩
    · refine Or.inr (Or.inr ⟨hd, hb, ?_⟩)
      simp [checkStimulants, hd, List.isEmpty_eq_false.mpr hb]
  · refine Or.inr (Or.inl ⟨hd, ?_⟩)
    have hne : foundDirectList l ++ foundBotanicalList l ≠ [] := by
      simp [List.append_eq_nil, hd]
    simp [checkStimulants, List.isEmpty_eq_false.mpr hne, List.isEmpty_eq_false.mpr hd]

theorem mem_found_union (l : List JStr) (stim : JStr) :
    stim ∈ jsDedup (foundDirectList l ++ foundBotanicalList l) ↔
      stim ∈ STIMULANTS_direct ++ STIMULANTS_botanical ∧
        ∃ ing ∈ l, stim <:+: jsToLower ing := by
  rw [mem_jsDedup, List.mem_append]
  constructor
  · rintro (h | h)
    · rcases (mem_foundDirectList l stim).mp h with ⟨hdir, hex⟩
      exact ⟨List.mem_append_left _ hdir, hex⟩
    · rcases (mem_foundBotanicalList l stim).mp h with ⟨hbot, hex⟩
      exact ⟨List.mem_append_right _ hbot, hex⟩
  · rintro ⟨hmem, hex⟩
    rcases List.mem_append.mp hmem with h | h
    · exact Or.inl ((mem_foundDirectList l stim).mpr ⟨h, hex⟩)
    · exact Or.inr ((mem_foundBotanicalList l stim).mpr ⟨h, hex⟩)

/-- Claim C1 (evaluation at the failing inputs).  The claim says
`normalizeIngredients` removes content enclosed in parentheses or square
brackets and collapses internal whitespace, which is also what the comments
inside the function promise.  Because the regex literals are doubly
escaped, the code does neither: `"Sugar (raw)"` keeps its parenthetical
(only the trailing `)` is stripped as edge noise), a double space survives,
while a backslash-delimited segment is what actually gets removed and a
backslash followed by letters `s` is what actually gets collapsed. -/
theorem normalizeIngredients_regex_slip :
    normalizeIngredients [jstr "Sugar (raw)"] = [jstr "sugar (raw"] ∧
    normalizeIngredients [jstr "Creatine  Monohydrate"] = [jstr "creatine  monohydrate"] ∧
    normalizeIngredients [jstr "ab\\ss\\cd"] = [jstr "abcd"] ∧
    normalizeIngredients [jstr "x\\sss y"] = [jstr "x  y"] := by
  refine ⟨by decide, by decide, by decide, by decide⟩

/-- Claim C6: `normalizeIngredients` is order-independent - permuting the
input list leaves the set of output strings unchanged - and single-pass:
every output element is the per-element cleanup of some input element. -/
theorem normalizeIngredients_order_independent :
    (∀ (l l' : List JStr), l.Perm l' →
      ∀ x, x ∈ normalizeIngredients l ↔ x ∈ normalizeIngredients l') ∧
    (∀ (l : List JStr), ∀ x ∈ normalizeIngredients l, ∃ ing ∈ l, x = normalizeOne ing) := by
  constructor
  · intro l l' hperm x
    rw [mem_normalizeIngredients, mem_normalizeIngredients]
    constructor
    · rintro ⟨⟨ing, hing, hx⟩, hne⟩
      exact ⟨⟨ing, hperm.mem_iff.mp hing, hx⟩, hne⟩
    · rintro ⟨⟨ing, hing, hx⟩, hne⟩
      exact ⟨⟨ing, hperm.mem_iff.mpr hing, hx⟩, hne⟩
  · intro l x hx
    rcases (mem_normalizeIngredients x l).mp hx with ⟨⟨ing, hing, hrep⟩, _⟩
    exact ⟨ing, hing, hrep.symm⟩

/-- Witness for C6 at a concrete two-element permutation. -/
theorem normalizeIngredients_order_independent_witness :
    (jstr "whey" ∈ normalizeIngredients [jstr "Whey", jstr "Creatine"] ↔
      jstr "whey" ∈ normalizeIngredients [jstr "Creatine", jstr "Whey"]) ∧
    (∃ ing ∈ [jstr "Whey", jstr "Creatine"], jstr "whey" = normalizeOne ing) :=
  ⟨normalizeIngredients_order_independent.1
      [jstr "Whey", jstr "Creatine"] [jstr "Creatine", jstr "Whey"] (by decide) _,
   normalizeIngredients_order_independent.2
      [jstr "Whey", jstr "Creatine"] (jstr "whey") (by decide)⟩

/-- Claim C2: `checkStimulants` reports `present = true` exactly when some
ingredient, lower-cased, contains a vocabulary entry as a substring; the
`type` is `direct` whenever a direct entry matched, `botanical` when only
botanical entries matched, and `none` (with `found = []`) when nothing
matched; `found` is the duplicate-free list of matched vocabulary
entries. -/
theorem checkStimulants_spec (l : List JStr) :
    ((checkStimulants l).present = true ↔
      ∃ ing ∈ l, ∃ stim ∈ STIMULANTS_direct ++ STIMULANTS_botanical,
        stim <:+: jsToLower ing) ∧
    ((∃ stim ∈ STIMULANTS_direct, ∃ ing ∈ l, stim <:+: jsToLower ing) →
      (checkStimulants l).type = jstr "direct") ∧
    ((checkStimulants l).present = true →
      (∀ stim ∈ STIMULANTS_direct, ∀ ing ∈ l, ¬ stim <:+: jsToLower ing) →
      (checkStimulants l).type = jstr "botanical") ∧
    ((checkStimulants l).present = false →
      (checkStimulants l).type = jstr "none" ∧ (checkStimulants l).found = []) ∧
    (checkStimulants l).found.Nodup ∧
    (∀ stim, stim ∈ (checkStimulants l).found ↔
      stim ∈ STIMULANTS_direct ++ STIMULANTS_botanical ∧
        ∃ ing ∈ l, stim <:+: jsToLower ing) := by
  rcases checkStimulants_cases l with ⟨hd, hb, hres⟩ | ⟨hd, hres⟩ | ⟨hd, hb, hres⟩
  · have hnomatch : ∀ ing ∈ l, ∀ stim ∈ STIMULANTS_direct ++ STIMULANTS_botanical,
        ¬ stim <:+: jsToLower ing := by
      intro ing hing stim hstim
      rcases List.mem_append.mp hstim with h | h
      · exact (foundDirectList_eq_nil l).mp hd stim h ing hing
      · exact (foundBotanicalList_eq_nil l).mp hb stim h ing hing
    refine ⟨?_, ?_, ?_, ?_, ?_, ?_⟩
    · rw [hres]
      constructor
      · intro h; cases h
      · rintro ⟨ing, hing, stim, hstim, hinf⟩
        exact absurd hinf (hnomatch ing hing stim hstim)
    · rintro ⟨stim, hstim, ing, hing, hinf⟩
      exact absurd hinf (hnomatch ing hing stim (List.mem_append_left _ hstim))
    · rw [hres]; intro h; cases h
    · rw [hres]; exact fun _ => ⟨rfl, rfl⟩
    · rw [hres]; exact List.nodup_nil
    · rw [hres]
      intro stim
      simp only [List.not_mem_nil, false_iff]
      rintro ⟨hstim, ing, hing, hinf⟩
      exact hnomatch ing hing stim hstim hinf
  · refine ⟨?_, ?_, ?_, ?_, ?_, ?_⟩
    · rw [hres]
      simp only [true_iff]
      rcases List.exists_mem_of_ne_nil _ hd with ⟨stim, hstim⟩
      rcases (mem_foundDirectList l stim).mp hstim with ⟨hdir, ing, hing, hinf⟩
      exact ⟨ing, hing, stim, List.mem_append_left _ hdir, hinf⟩
    · intro _; rw [hres]
    · intro _ hnone
      exact absurd ((foundDirectList_eq_nil l).mpr hnone) hd
    · rw [hres]; intro h; cases h
    · rw [hres]; exact nodup_jsDedup _
    · exact fun stim => hres ▸ mem_found_union l stim
  · refine ⟨?_, ?_, ?_, ?_, ?_, ?_⟩
    · rw [hres]
      simp only [true_iff]
      rcases List.exists_mem_of_ne_nil _ hb with ⟨stim, hstim⟩
      rcases (mem_foundBotanicalList l stim).mp hstim with ⟨hbot, ing, hing, hinf⟩
      exact ⟨ing, hing, stim, List.mem_append_right _ hbot, hinf⟩
    · rintro ⟨stim, hstim, ing, hing, hinf⟩
      have : stim ∈ foundDirectList l :=
        (mem_foundDirectList l stim).mpr ⟨hstim, ing, hing, hinf⟩
      rw [hd] at this
      cases this
    · intro _ _; rw [hres]
    · rw [hres]; intro h; cases h
    · rw [hres]; exact nodup_jsDedup _
    · exact fun stim => hres ▸ mem_found_union l stim

/-- Witness for C2 at a concrete ingredient list containing a direct
stimulant. -/
theorem checkStimulants_spec_witness :
    (checkStimulants [jstr "Anhydrous Caffeine blend"]).type = jstr "direct" :=
  (checkStimulants_spec [jstr "Anhydrous Caffeine blend"]).2.1
    ⟨jstr "caffeine", by decide, jstr "Anhydrous Caffeine blend", by decide, by decide⟩

theorem checkDietaryMismatches_empty_prefs (pd : Product) :
    (checkDietaryMismatches [] pd).mismatches = [] := by
  simp [checkDietaryMismatches]

/-- Claim C7: `getUserContext` default-fills - every field of the default
record is in the result, storage values override field-wise, absent fields
keep their defaults (the legacy keys have no default and are carried over
as stored) - and a failed read yields exactly the default record. -/
theorem getUserContext_default_fill :
    (∀ stored : StoredContext,
      (getUserContext (.ok (some stored))).age
          = stored.age.getD DEFAULT_USER_CONTEXT.age ∧
      (getUserContext (.ok (some stored))).weight_kg
          = stored.weight_kg.getD DEFAULT_USER_CONTEXT.weight_kg ∧
      (getUserContext (.ok (some stored))).height_cm
          = stored.height_cm.getD DEFAULT_USER_CONTEXT.height_cm ∧
      (getUserContext (.ok (some stored))).gender
          = stored.gender.getD DEFAULT_USER_CONTEXT.gender ∧
      (getUserContext (.ok (some stored))).primary_goal
          = stored.primary_goal.getD DEFAULT_USER_CONTEXT.primary_goal ∧
      (getUserContext (.ok (some stored))).training_frequency
          = stored.training_frequency.getD DEFAULT_USER_CONTEXT.training_frequency ∧
      (getUserContext (.ok (some stored))).training_style
          = stored.training_style.getD DEFAULT_USER_CONTEXT.training_style ∧
      (getUserContext (.ok (some stored))).nutrition_priority
          = stored.nutrition_priority.getD DEFAULT_USER_CONTEXT.nutrition_priority ∧
      (getUserContext (.ok (some stored))).dietary_style
          = stored.dietary_style.getD DEFAULT_USER_CONTEXT.dietary_style ∧
      (getUserContext (.ok (some stored))).avoidances
          = stored.avoidances.getD DEFAULT_USER_CONTEXT.avoidances ∧
      (getUserContext (.ok (some stored))).supplements_intake
          = stored.supplements_intake.getD DEFAULT_USER_CONTEXT.supplements_intake ∧
      (getUserContext (.ok (some stored))).current_focus
          = stored.current_focus.getD DEFAULT_USER_CONTEXT.current_focus ∧
      (getUserContext (.ok (some stored))).mental_focus
          = stored.mental_focus.getD DEFAULT_USER_CONTEXT.mental_focus ∧
      (getUserContext (.ok (some stored))).joint_protection
          = stored.joint_protection.getD DEFAULT_USER_CONTEXT.joint_protection ∧
      (getUserContext (.ok (some stored))).additional_context
          = stored.additional_context.getD DEFAULT_USER_CONTEXT.additional_context ∧
      (getUserContext (.ok (some stored))).goals = stored.goals ∧
      (getUserContext (.ok (some stored))).preferences = stored.preferences ∧
      (getUserContext (.ok (some stored))).dietary = stored.dietary) ∧
    getUserContext (.ok none) = DEFAULT_USER_CONTEXT ∧
    getUserContext .err = DEFAULT_USER_CONTEXT := by
  refine ⟨fun stored => ?_, rfl, rfl⟩
  repeat' constructor

/-- Claim C8: the storage module addresses exactly the two keys
`whatfits_user_context` and `whatfits_api_key`; `clearStorage` removes
exactly those two and leaves every other key unchanged, and each save
writes only its own key, leaving the other record (and all foreign keys)
unchanged. -/
theorem storage_two_keys_frame {α : Type _} (s : Store α) (v : α) (k : JStr) :
    (k ≠ STORAGE_KEY_USER_CONTEXT → k ≠ STORAGE_KEY_API_KEY →
      clearStorage s k = s k) ∧
    clearStorage s STORAGE_KEY_USER_CONTEXT = none ∧
    clearStorage s STORAGE_KEY_API_KEY = none ∧
    (k ≠ STORAGE_KEY_USER_CONTEXT → saveUserContext s v k = s k) ∧
    saveUserContext s v STORAGE_KEY_USER_CONTEXT = some v ∧
    (k ≠ STORAGE_KEY_API_KEY → saveApiKey s v k = s k) ∧
    saveApiKey s v STORAGE_KEY_API_KEY = some v ∧
    saveUserContext s v STORAGE_KEY_API_KEY = s STORAGE_KEY_API_KEY ∧
    saveApiKey s v STORAGE_KEY_USER_CONTEXT = s STORAGE_KEY_USER_CONTEXT := by
  refine ⟨fun h1 h2 => ?_, ?_, ?_, fun h1 => ?_, ?_, fun h1 => ?_, ?_, ?_, ?_⟩
  · simp [clearStorage, storeRemove, h1, h2]
  · simp [clearStorage, storeRemove]
  · simp [clearStorage, storeRemove]
  · simp [saveUserContext, storeSet, h1]
  · simp [saveUserContext, storeSet]
  · simp [saveApiKey, storeSet, h1]
  · simp [saveApiKey, storeSet]
  · simp only [saveUserContext, storeSet]
    rw [if_neg (by decide)]
  · simp only [saveApiKey, storeSet]
    rw [if_neg (by decide)]

/-- Witness for C8 at a concrete store and a foreign key. -/
theorem storage_two_keys_frame_witness :
    clearStorage demoStore (jstr "other") = some 7 ∧
    saveUserContext demoStore 1 (jstr "other") = some 7 ∧
    saveApiKey demoStore 1 (jstr "other") = some 7 :=
  ⟨(storage_two_keys_frame demoStore 1 (jstr "other")).1 (by decide) (by decide),
   (storage_two_keys_frame demoStore 1 (jstr "other")).2.2.2.1 (by decide),
   (storage_two_keys_frame demoStore 1 (jstr "other")).2.2.2.2.2.1 (by decide)⟩

theorem checkDietaryMismatches_vegan (pd : Product) :
    checkDietaryMismatches [jstr "vegan"] pd =
      DietaryCheck.mk (if hasDairyMarker pd then
        [DietaryMismatch.mk (jstr "vegan")
          (jstr "Contains dairy-derived ingredients, which conflicts with vegan preference.")]
      else []) := by
  have hne1 : ¬ (jstr "lactose_free" = jstr "vegan") := by decide
  have hne3 : ¬ (jstr "gluten_free" = jstr "vegan") := by decide
  simp [checkDietaryMismatches, hasDairyMarker, ingredientsJoinedLower, hne1, hne3]

/-- Counterexample to claim C9 as stated.  The claim's premise is false of
the program: both popup save handlers write the computed legacy `dietary`
key (`['vegan']` when `vegan` is selected among the dietary styles), so the
dietary check is not dead.  For the context the popup saves for a vegan
user and a product whose ingredients carry a dairy marker, the summary's
dietary outputs are nonempty. -/
theorem generateRuleSummary_dietary_not_dead :
    (generateRuleSummary demoProduct
        (getUserContext (.ok (some demoVeganSaved)))).dietary_mismatches
      = [jstr "vegan"] ∧
    (generateRuleSummary demoProduct
        (getUserContext (.ok (some demoVeganSaved)))).dietary_reasons
      = [DietaryMismatch.mk (jstr "vegan")
          (jstr "Contains dairy-derived ingredients, which conflicts with vegan preference.")] := by
  constructor <;> decide

/-- Claim C9 (amended): `generateRuleSummary` feeds the dietary check
`userContext.dietary || []`.  The questionnaire schema itself has no
`dietary` field, but the popup save handlers always write the computed
legacy `dietary` key: `['vegan']` when `vegan` is among the selected
dietary styles, `[]` otherwise (first conjunct).  Consequently the dietary
outputs are empty whenever that argument is empty - in particular for
every popup-saved context without a vegan selection, regardless of the
product and of the stated avoidances (second conjunct) - and for a vegan
selection they consist of exactly the vegan mismatch precisely when the
preprocessed product's joined, lower-cased ingredients contain a dairy
marker (third conjunct). -/
theorem generateRuleSummary_dietary_vegan_computed :
    (∀ (primaryGoal : List JStr) (trainingFrequency : JStr)
        (trainingStyle nutritionPriority dietaryStyle avoidances : List JStr)
        (currentFocus mentalFocus : JStr) (jointProtection : List JStr)
        (additionalContext : JStr),
      (getUserContext (.ok (some (popupSavedContext primaryGoal trainingFrequency
          trainingStyle nutritionPriority dietaryStyle avoidances currentFocus
          mentalFocus jointProtection additionalContext)))).dietary
        = some (if dietaryStyle.contains (jstr "vegan") then [jstr "vegan"] else [])) ∧
    (∀ (ctx : UserContext) (pd : Product), ctx.dietary.getD [] = [] →
      (generateRuleSummary pd ctx).dietary_mismatches = [] ∧
      (generateRuleSummary pd ctx).dietary_reasons = []) ∧
    (∀ (ctx : UserContext) (pd : Product), ctx.dietary = some [jstr "vegan"] →
      (generateRuleSummary pd ctx).dietary_mismatches
          = (if hasDairyMarker (preprocessProductData pd) then [jstr "vegan"] else []) ∧
      (generateRuleSummary pd ctx).dietary_reasons
          = (if hasDairyMarker (preprocessProductData pd) then
              [DietaryMismatch.mk (jstr "vegan")
                (jstr "Contains dairy-derived ingredients, which conflicts with vegan preference.")]
             else [])) := by
  refine ⟨fun _ _ _ _ _ _ _ _ _ _ => rfl, ?_, ?_⟩
  · intro ctx pd h
    constructor <;>
      simp [generateRuleSummary, h, checkDietaryMismatches_empty_prefs]
  · intro ctx pd h
    have hv := checkDietaryMismatches_vegan (preprocessProductData pd)
    constructor <;> simp [generateRuleSummary, h, hv, apply_ite]

/-- Witness for the amended C9: the empty case at the default context and
the live case at the popup-saved vegan context. -/
theorem generateRuleSummary_dietary_vegan_computed_witness :
    (generateRuleSummary demoProduct DEFAULT_USER_CONTEXT).dietary_mismatches = [] ∧
    (generateRuleSummary demoProduct
        (getUserContext (.ok (some demoVeganSaved)))).dietary_reasons ≠ [] := by
  constructor
  · exact (generateRuleSummary_dietary_vegan_computed.2.1
      DEFAULT_USER_CONTEXT demoProduct rfl).1
  · have h := (generateRuleSummary_dietary_vegan_computed.2.2
      (getUserContext (.ok (some demoVeganSaved))) demoProduct (by decide)).2
    rw [h]
    decide

/-- Claim C3: every way `analyzeProductAlignment` can fail to complete - no
API key, missing product or falsy title, or a network call that throws
(HTTP failure, empty content, parse failure) - lands in the single fallback
with `error = true`, `alignment = neutral`, `alignment_confidence = 0`,
`data_quality = 0` and a `reasons` entry carrying the message; the cart
fallback returns `stack_alignment_score = 0` with `error = true`.  The
embedding consults the network oracle exactly once, mirroring the absence
of any retry in the source. -/
theorem analyzeProductAlignment_error_paths :
    (∀ (pdOpt : Option Product) (ctx : UserContext) (key : Option JStr)
        (network : OpenAIRequest → Except JStr LLMResponse),
      jsTruthyStr key = false →
        analyzeProductAlignment pdOpt ctx key network
          = createFallbackResponse (jstr "No API key configured") pdOpt) ∧
    (∀ (ctx : UserContext) (key : Option JStr)
        (network : OpenAIRequest → Except JStr LLMResponse),
      jsTruthyStr key = true →
        analyzeProductAlignment none ctx key network
          = createFallbackResponse (jstr "Insufficient product data") none) ∧
    (∀ (pd : Product) (ctx : UserContext) (key : Option JStr)
        (network : OpenAIRequest → Except JStr LLMResponse),
      jsTruthyStr key = true → jsTruthyStr pd.title = false →
        analyzeProductAlignment (some pd) ctx key network
          = createFallbackResponse (jstr "Insufficient product data") (some pd)) ∧
    (∀ (pd : Product) (ctx : UserContext) (k : JStr)
        (network : OpenAIRequest → Except JStr LLMResponse) (msg : JStr),
      jsTruthyStr (some k) = true → jsTruthyStr pd.title = true →
      network (productAlignmentRequest k pd ctx) = Except.error msg →
        analyzeProductAlignment (some pd) ctx (some k) network
          = createFallbackResponse msg (some pd)) ∧
    (∀ (msg : JStr) (pdOpt : Option Product),
      (createFallbackResponse msg pdOpt).error = true ∧
      (createFallbackResponse msg pdOpt).alignment = jstr "neutral" ∧
      (createFallbackResponse msg pdOpt).alignment_confidence = 0 ∧
      (createFallbackResponse msg pdOpt).data_quality = 0 ∧
      (createFallbackResponse msg pdOpt).reasons = [jstr "Error: " ++ msg]) ∧
    (∀ msg : JStr,
      (createCartFallback msg).stack_alignment_score = 0 ∧
      (createCartFallback msg).error = true) := by
  refine ⟨?_, ?_, ?_, ?_, ?_, ?_⟩
  · intro pdOpt ctx key network hk
    simp [analyzeProductAlignment, hk]
  · intro ctx key network hk
    simp [analyzeProductAlignment, hk]
  · intro pd ctx key network hk ht
    simp [analyzeProductAlignment, hk, ht]
  · intro pd ctx k network msg hk ht hnet
    simp [analyzeProductAlignment, hk, ht, hnet]
  · exact fun msg pdOpt => ⟨rfl, rfl, rfl, rfl, rfl⟩
  · exact fun msg => ⟨rfl, rfl⟩

/-- Witness for C3: the missing-key fallback and a failing network call at
concrete inputs. -/
theorem analyzeProductAlignment_error_paths_witness :
    analyzeProductAlignment none DEFAULT_USER_CONTEXT none demoNetworkOk
      = createFallbackResponse (jstr "No API key configured") none ∧
    analyzeProductAlignment (some demoProduct) DEFAULT_USER_CONTEXT
        (some (jstr "sk-demo")) demoNetworkErr
      = createFallbackResponse (jstr "API error: 500") (some demoProduct) :=
  ⟨analyzeProductAlignment_error_paths.1 none DEFAULT_USER_CONTEXT none
      demoNetworkOk rfl,
   analyzeProductAlignment_error_paths.2.2.2.1 demoProduct DEFAULT_USER_CONTEXT
      (jstr "sk-demo") demoNetworkErr (jstr "API error: 500")
      (by decide) (by decide) rfl⟩

/-- Claim C4: on a successful call the returned record carries the
deterministic `confidence_score` (whatever the model sent),
`data_quality = round(data_completeness * 100)`, a `missing_data` that is
the duplicate-free union of the model list with the deterministic
`missing_fields`, and `error = false`. -/
theorem analyzeProductAlignment_success (pd : Product) (ctx : UserContext)
    (k : JStr) (network : OpenAIRequest → Except JStr LLMResponse)
    (resp : LLMResponse)
    (hk : jsTruthyStr (some k) = true)
    (ht : jsTruthyStr pd.title = true)
    (hnet : network (productAlignmentRequest k pd ctx) = Except.ok resp) :
    (analyzeProductAlignment (some pd) ctx (some k) network).error = false ∧
    (analyzeProductAlignment (some pd) ctx (some k) network).alignment_confidence
        = (generateRuleSummary pd ctx).confidence_score ∧
    (analyzeProductAlignment (some pd) ctx (some k) network).data_quality
        = round ((generateRuleSummary pd ctx).data_completeness * 100) ∧
    (analyzeProductAlignment (some pd) ctx (some k) network).missing_data
        = jsDedup (resp.missing_data.getD []
            ++ (generateRuleSummary pd ctx).missing_fields) ∧
    (analyzeProductAlignment (some pd) ctx (some k) network).missing_data.Nodup ∧
    (∀ x : JStr,
      x ∈ (analyzeProductAlignment (some pd) ctx (some k) network).missing_data ↔
        x ∈ resp.missing_data.getD []
          ∨ x ∈ (generateRuleSummary pd ctx).missing_fields) := by
  have hres : analyzeProductAlignment (some pd) ctx (some k) network =
      AlignmentResult.mk resp.alignment
        (generateRuleSummary pd ctx).confidence_score
        (round ((generateRuleSummary pd ctx).data_completeness * 100))
        resp.reasons resp.considerations resp.preference_matches
        resp.preference_mismatches
        (jsDedup (resp.missing_data.getD []
          ++ (generateRuleSummary pd ctx).missing_fields))
        resp.questions false := by
    simp [analyzeProductAlignment, hk, ht, hnet]
  refine ⟨by rw [hres], by rw [hres], by rw [hres], by rw [hres], ?_, ?_⟩
  · rw [hres]; exact nodup_jsDedup _
  · intro x
    rw [hres]
    show x ∈ jsDedup _ ↔ _
    rw [mem_jsDedup]
    exact List.mem_append

/-- Witness for C4 at a concrete product, context, key and succeeding
oracle. -/
theorem analyzeProductAlignment_success_witness :
    (analyzeProductAlignment (some demoProduct) DEFAULT_USER_CONTEXT
        (some (jstr "sk-demo")) demoNetworkOk).error = false :=
  (analyzeProductAlignment_success demoProduct DEFAULT_USER_CONTEXT
      (jstr "sk-demo") demoNetworkOk demoResponse
      (by decide) (by decide) rfl).1

/-- Claim C5: every product-alignment request carries the
`PRODUCT_ALIGNMENT_SCHEMA` response format - strict, requiring exactly the
seven fields, forbidding additional properties, with the alignment
enumeration and the stated per-array `maxItems` caps - and caps
`max_tokens` at 600. -/
theorem productAlignmentRequest_schema_bounded (k : JStr) (pd : Product)
    (ctx : UserContext) :
    (productAlignmentRequest k pd ctx).response_format = PRODUCT_ALIGNMENT_SCHEMA ∧
    (productAlignmentRequest k pd ctx).max_tokens = 600 ∧
    PRODUCT_ALIGNMENT_SCHEMA.strict = true ∧
    PRODUCT_ALIGNMENT_SCHEMA.additionalProperties = false ∧
    PRODUCT_ALIGNMENT_SCHEMA.required
        = [jstr "alignment", jstr "reasons", jstr "considerations",
           jstr "preference_matches", jstr "preference_mismatches",
           jstr "missing_data", jstr "questions"] ∧
    PRODUCT_ALIGNMENT_SCHEMA.properties.map Prod.fst
        = [jstr "alignment", jstr "reasons", jstr "considerations",
           jstr "preference_matches", jstr "preference_mismatches",
           jstr "missing_data", jstr "questions"] ∧
    List.lookup (jstr "alignment") PRODUCT_ALIGNMENT_SCHEMA.properties
        = some (PropSpec.mk (jstr "string")
            (some [jstr "aligned", jstr "neutral", jstr "misaligned"]) none) ∧
    List.lookup (jstr "reasons") PRODUCT_ALIGNMENT_SCHEMA.properties
        = some (PropSpec.mk (jstr "array") none (some 3)) ∧
    List.lookup (jstr "considerations") PRODUCT_ALIGNMENT_SCHEMA.properties
        = some (PropSpec.mk (jstr "array") none (some 3)) ∧
    List.lookup (jstr "preference_matches") PRODUCT_ALIGNMENT_SCHEMA.properties
        = some (PropSpec.mk (jstr "array") none (some 5)) ∧
    List.lookup (jstr "preference_mismatches") PRODUCT_ALIGNMENT_SCHEMA.properties
        = some (PropSpec.mk (jstr "array") none (some 5)) ∧
    List.lookup (jstr "missing_data") PRODUCT_ALIGNMENT_SCHEMA.properties
        = some (PropSpec.mk (jstr "array") none (some 5)) ∧
    List.lookup (jstr "questions") PRODUCT_ALIGNMENT_SCHEMA.properties
        = some (PropSpec.mk (jstr "array") none (some 2)) := by
  refine ⟨rfl, rfl, rfl, rfl, by decide, by decide, by decide, by decide,
    by decide, by decide, by decide, by decide, by decide⟩

/-- Claim C10: every item surviving `extractCartData` has a non-null name,
at least 3 characters long, whose lower-cased form contains no deny-list
term and which is not merely a price; and `missing_data` lists `items`
exactly when the filtered list is empty. -/
theorem extractCartData_items_clean (scraped : List RawCartItem)
    (total : Option JStr) :
    (∀ it ∈ (extractCartData scraped total).items, ∃ s : JStr,
      it.name = some s ∧ 3 ≤ s.length ∧
      (∀ term ∈ DENY_LIST, ¬ term <:+: jsToLower s) ∧
      nameIsPriceOnly s = false) ∧
    (jstr "items" ∈ (extractCartData scraped total).missing_data ↔
      (extractCartData scraped total).items = []) := by
  constructor
  · intro it hit
    simp only [extractCartData] at hit
    rcases List.mem_filter.mp hit with ⟨_, hkeep⟩
    cases hname : it.name with
    | none => rw [cartNoiseKeep, hname] at hkeep; cases hkeep
    | some name =>
      rw [cartNoiseKeep, hname] at hkeep
      dsimp only at hkeep
      split_ifs at hkeep with h1 h2 h3 h4
      refine ⟨name, rfl, ?_, ?_, ?_⟩
      · have hlen : ¬ (jsToLower name).length < 3 := h3
        rw [jsToLower, List.length_map] at hlen
        exact Nat.le_of_not_lt hlen
      · intro term hterm hinf
        exact h2 (List.any_eq_true.mpr
          ⟨term, hterm, (jsIncludes_iff _ _).mpr hinf⟩)
      · exact Bool.not_eq_true _ ▸ Bool.of_not_eq_true h4
  · cases hitems : (scraped.filter
        (fun it => jsTruthyStr it.name || jsTruthyStr it.price)).filter
        cartNoiseKeep with
    | nil => simp [extractCartData, hitems]
    | cons a rest =>
      cases htot : jsTruthyStr total
      all_goals simp [extractCartData, hitems, htot]
      all_goals decide

/-- Witness for C10 at a concrete one-item cart. -/
theorem extractCartData_items_clean_witness :
    ∃ s : JStr, demoCartItem.name = some s ∧ 3 ≤ s.length ∧
      (∀ term ∈ DENY_LIST, ¬ term <:+: jsToLower s) ∧
      nameIsPriceOnly s = false :=
  (extractCartData_items_clean [demoCartItem] none).1 demoCartItem (by decide)

end WhatFits
